import Mathlib

/-!
Verification of the Dynamic-Redirect service against its specification.

The repository contains two Azure-Functions handler variants:
* `HttpTrigger1/__init__.py` — flat mapping list: the cached configuration is
  a triple `(environment_guid, is_gov, app_mappings)` where `app_mappings` is
  a list of string-keyed dictionaries, and lookup is by exact `AppName`
  equality on the raw identifier (no environment-code parsing, no query
  forwarding).
* `redirect/__init__.py` — per-environment tables: the cached configuration
  holds an `EnvironmentGUIDs` map and an `Apps` map (app name to
  environment-code-to-GUID map); the raw identifier is first parsed for a
  3-letter environment code, `is_gov` is re-read from the `IS_GOV`
  environment variable on every request, and extra query parameters are
  appended to the redirect URL.

Python dictionaries are embedded as association lists (insertion-ordered,
first-match lookup); an HTTP request's query parameters are such a list;
`Optional`/possibly-raising operations are embedded with `Option`/`Except`.
-/

/-- Python `str.upper()`, character by character (the identifiers involved
are ASCII, where `Char.toUpper` agrees with Python's mapping). -/
def str_upper (s : String) : String := ⟨s.data.map Char.toUpper⟩

/-- Python `str.lower()`, character by character (the values involved are
ASCII, where `Char.toLower` agrees with Python's mapping). -/
def str_lower (s : String) : String := ⟨s.data.map Char.toLower⟩

/-- First-match lookup in a string-keyed association list; embeds Python
`dict.get` / `key in dict` / `dict[key]` (`none` ↔ absent key). -/
def dictGet {β : Type} : List (String × β) → String → Option β
  | [], _ => none
  | (k, v) :: rest, key => if k = key then some v else dictGet rest key

/-- Python `str(x)` applied to a value that is either a string or `None`,
as it happens inside an f-string: `None` renders as the text `None`. -/
def pyOptStr : Option String → String
  | none => "None"
  | some s => s

/-- Python `"&".join(pieces)`: empty for `[]`, otherwise the pieces
interleaved with `&`. -/
def joinAmp : List String → String
  | [] => ""
  | [x] => x
  | x :: y :: rest => x ++ "&" ++ joinAmp (y :: rest)

/-- The base URL both variants build:
`f"https://apps.{'gov.' if is_gov else ''}powerapps{'.us' if is_gov else '.com'}/play/e"`. -/
def base_url (is_gov : Bool) : String :=
  "https://apps." ++ (if is_gov then "gov." else "") ++ "powerapps"
    ++ (if is_gov then ".us" else ".com") ++ "/play/e"

/-- The full redirect URL before any query string:
`f"{base_url}/{environment_guid}/a/{app_guid}"`. -/
def redirect_url (is_gov : Bool) (environment_guid app_guid : String) : String :=
  base_url is_gov ++ "/" ++ environment_guid ++ "/a/" ++ app_guid

/-- An HTTP response as far as the handlers produce one: status code, body
text, and the optional `Location` header. -/
structure Response where
  status : Nat
  body : String
  location : Option String
  deriving Repr, DecidableEq

namespace HttpTrigger1

/-- The validated configuration of `HttpTrigger1.load_config`: the triple
`(environment_guid, is_gov, app_mappings)`, where each mapping entry is a
string-keyed dictionary. -/
structure Config1 where
  environment_guid : String
  is_gov : Bool
  app_mappings : List (List (String × String))
  deriving Repr, DecidableEq

/-- `next((m for m in mappings if m["AppName"] == app_name), None)`:
first entry whose `AppName` value equals `app_name`; an entry without an
`AppName` key raises `KeyError` (embedded as `Except.error ()`), which in
`main` falls through to the generic 500 handler. -/
def find_mapping : List (List (String × String)) → String →
    Except Unit (Option (List (String × String)))
  | [], _ => .ok none
  | m :: rest, app_name =>
    match dictGet m "AppName" with
    | none => .error ()
    | some v => if v = app_name then .ok (some m) else find_mapping rest app_name

/-- `HttpTrigger1.main`. `loadRes` is the outcome of `load_config()` for this
request (the cached value, or the raised `ConfigError`/`MappingError`
message); `params` is `req.params`. The configuration is loaded before the
`app_name` check; a missing or empty `app_name` yields 400; a `KeyError`
from the mapping scan reaches the outer generic handler (500). -/
def main (loadRes : Except String Config1) (params : List (String × String)) :
    Response :=
  match loadRes with
  | .error _ => ⟨500, "Service configuration error", none⟩
  | .ok cfg =>
    match dictGet params "app_name" with
    | none => ⟨400, "Please provide an app_name in the query string.", none⟩
    | some app_name =>
      if app_name = "" then
        ⟨400, "Please provide an app_name in the query string.", none⟩
      else
        match find_mapping cfg.app_mappings app_name with
        | .error _ => ⟨500, "Internal server error", none⟩
        | .ok none => ⟨404, "App '" ++ app_name ++ "' not found.", none⟩
        | .ok (some m) =>
          ⟨302, "",
            some (redirect_url cfg.is_gov cfg.environment_guid
              (pyOptStr (dictGet m "AppGUID")))⟩

end HttpTrigger1

namespace Redirect

/-- `SUPPORTED_ENVIRONMENTS = ["PRD", "TST", "DEV"]`. -/
def SUPPORTED_ENVIRONMENTS : List String := ["PRD", "TST", "DEV"]

/-- `DEFAULT_ENVIRONMENT = "PRD"`. -/
def DEFAULT_ENVIRONMENT : String := "PRD"

/-- The validated configuration of `redirect.load_config`: the
`EnvironmentGUIDs` map (environment code → environment GUID) and the `Apps`
map (app name → (environment code → app GUID)). -/
structure Config2 where
  environmentGUIDs : List (String × String)
  apps : List (String × List (String × String))
  deriving Repr, DecidableEq

/-- `redirect.parse_app_name`: identifiers shorter than 4 characters are the
whole app name in the default environment; otherwise the uppercased first 3
characters are tried as an environment code, stripping them on a match and
falling back to `(DEFAULT_ENVIRONMENT, whole string)` otherwise. -/
def parse_app_name (app_name_with_env : String) : String × String :=
  if app_name_with_env.length < 4 then
    (DEFAULT_ENVIRONMENT, app_name_with_env)
  else
    let potential_env := str_upper (app_name_with_env.take 3)
    let app_name := app_name_with_env.drop 3
    if potential_env ∈ SUPPORTED_ENVIRONMENTS then
      (potential_env, app_name)
    else
      (DEFAULT_ENVIRONMENT, app_name_with_env)

/-- The resolved mapping dictionary `redirect.get_mapping` returns on
success. -/
structure Mapping where
  appName : String
  environment : String
  environmentGUID : String
  appGUID : String
  deriving Repr, DecidableEq

/-- The lookup `redirect.get_mapping` performs after parsing: environment
code in `EnvironmentGUIDs`, then app name in `Apps`, then environment code
in that app's table; any miss yields `None`. -/
def lookup_parsed (config : Config2) (envCode app_name : String) :
    Option Mapping :=
  match dictGet config.environmentGUIDs envCode with
  | none => none
  | some environment_guid =>
    match dictGet config.apps app_name with
    | none => none
    | some app_envs =>
      match dictGet app_envs envCode with
      | none => none
      | some app_guid => some ⟨app_name, envCode, environment_guid, app_guid⟩

/-- `redirect.get_mapping`: parse the identifier, then call `load_config()`
(`loadRes` is its outcome for this request) and look the parsed parts up; a
`ConfigError` from loading is caught and becomes `None`, exactly like a
failed lookup. -/
def get_mapping (loadRes : Except String Config2)
    (app_name_with_env : String) : Option Mapping :=
  let parsed := parse_app_name app_name_with_env
  match loadRes with
  | .error _ => none
  | .ok config => lookup_parsed config parsed.1 parsed.2

/-- `os.environ.get('IS_GOV', 'false').lower() == 'true'`, from the value of
the `IS_GOV` environment variable at this request. -/
def is_gov_env (v : Option String) : Bool :=
  str_lower (v.getD "false") = "true"

/-- The request's query parameters minus the mandatory `app_name`, in their
original iteration order: `params.copy()` followed by
`params.pop("app_name", None)`. -/
def extra_params (params : List (String × String)) : List (String × String) :=
  params.filter (fun p => p.1 ≠ "app_name")

/-- The query-string suffix `redirect.main` appends: the request's
parameters minus `app_name`, `&`-joined as `key=value`, behind a `?` when
non-empty. -/
def query_suffix (params : List (String × String)) : String :=
  let query_string := joinAmp ((extra_params params).map (fun p => p.1 ++ "=" ++ p.2))
  if query_string = "" then "" else "?" ++ query_string

/-- `redirect.main`. `loadRes` is the outcome `load_config()` would have for
this request, `isGovEnv` the current value of the `IS_GOV` environment
variable, `params` is `req.params`. The `app_name` check comes first (the
configuration is only touched inside `get_mapping`); `is_gov` is re-read
from the environment on every request. -/
def main (loadRes : Except String Config2) (isGovEnv : Option String)
    (params : List (String × String)) : Response :=
  match dictGet params "app_name" with
  | none => ⟨400, "Please provide an app_name in the query string.", none⟩
  | some app_name_with_env =>
    if app_name_with_env = "" then
      ⟨400, "Please provide an app_name in the query string.", none⟩
    else
      let query_string := joinAmp ((extra_params params).map (fun p => p.1 ++ "=" ++ p.2))
      let is_gov := is_gov_env isGovEnv
      match get_mapping loadRes app_name_with_env with
      | none =>
        ⟨404, "App '" ++ app_name_with_env
          ++ "' not found or environment not supported.", none⟩
      | some mapping =>
        let url := redirect_url is_gov mapping.environmentGUID mapping.appGUID
        ⟨302, "",
          some (if query_string = "" then url else url ++ "?" ++ query_string)⟩

/-- One call through `@lru_cache(maxsize=1) def load_config()`: `cache` is
the decorator's stored value, `attempt` what actually loading the file would
yield right now. `functools.lru_cache` returns the stored value without
re-running the body once a call has succeeded, and stores nothing when the
body raises. -/
def load_config_cached (cache : Option Config2)
    (attempt : Except String Config2) :
    Option Config2 × Except String Config2 :=
  match cache with
  | some c => (some c, .ok c)
  | none =>
    match attempt with
    | .ok c => (some c, .ok c)
    | .error e => (none, .error e)

/-- A sequence of `load_config()` calls within one process: the n-th element
of `attempts` is what reading and validating the file would yield at the
time of the n-th call; returns each call's outcome. -/
def load_config_calls (cache : Option Config2) :
    List (Except String Config2) → List (Except String Config2)
  | [] => []
  | attempt :: rest =>
    let step := load_config_cached cache attempt
    step.2 :: load_config_calls step.1 rest

end Redirect

/-- A flat-variant configuration holding the single app `cip` with GUID `g`,
used to exercise `HttpTrigger1.main` on concrete requests. -/
def cfg_flat : HttpTrigger1.Config1 :=
  ⟨"eg", false, [[("AppName", "cip"), ("AppGUID", "g")]]⟩

/-- A flat-variant configuration whose only entry is the app `foo`; the
identifier `TSTfoo` parses (in the other variant) to environment `TST` and
app `foo`. -/
def cfg_flatTST : HttpTrigger1.Config1 :=
  ⟨"eg", false, [[("AppName", "foo"), ("AppGUID", "g1")]]⟩

/-- A flat-variant configuration whose only entry has an `AppName` but no
`AppGUID` key. -/
def cfg_flat_noguid : HttpTrigger1.Config1 :=
  ⟨"eg", true, [[("AppName", "cip")]]⟩

/-- A per-environment configuration holding the app `cip` in the `PRD`
environment. -/
def cfg_env : Redirect.Config2 :=
  ⟨[("PRD", "e1")], [("cip", [("PRD", "a1")])]⟩

/-- A per-environment configuration whose stored app name `TSTadmin`
literally starts with a reserved environment code. -/
def cfg_envTST : Redirect.Config2 :=
  ⟨[("PRD", "e1"), ("TST", "e2")], [("TSTadmin", [("PRD", "a1")])]⟩

namespace Redirect

lemma parse_app_name_of_lt (raw : String) (h : raw.length < 4) :
    parse_app_name raw = ("PRD", raw) := by
  simp [parse_app_name, DEFAULT_ENVIRONMENT, h]

lemma parse_app_name_of_mem (raw : String) (h4 : 4 ≤ raw.length)
    (hmem : str_upper (raw.take 3) ∈ SUPPORTED_ENVIRONMENTS) :
    parse_app_name raw = (str_upper (raw.take 3), raw.drop 3) := by
  simp [parse_app_name, Nat.not_lt.mpr h4, hmem]

lemma parse_app_name_of_not_mem (raw : String) (h4 : 4 ≤ raw.length)
    (hmem : str_upper (raw.take 3) ∉ SUPPORTED_ENVIRONMENTS) :
    parse_app_name raw = ("PRD", raw) := by
  simp [parse_app_name, Nat.not_lt.mpr h4, hmem, DEFAULT_ENVIRONMENT]

lemma load_config_calls_cached (c : Config2) :
    ∀ attempts : List (Except String Config2),
      load_config_calls (some c) attempts = attempts.map (fun _ => Except.ok c)
  | [] => rfl
  | a :: rest => by
    simp [load_config_calls, load_config_cached, load_config_calls_cached c rest]

lemma lookup_parsed_eq_none_iff (cfg : Config2) (envCode app_name : String) :
    lookup_parsed cfg envCode app_name = none ↔
      dictGet cfg.environmentGUIDs envCode = none
      ∨ dictGet cfg.apps app_name = none
      ∨ ∃ app_envs, dictGet cfg.apps app_name = some app_envs
          ∧ dictGet app_envs envCode = none := by
  rcases h1 : dictGet cfg.environmentGUIDs envCode with _ | eg <;>
    rcases h2 : dictGet cfg.apps app_name with _ | ae <;>
      simp [lookup_parsed, h1, h2]
  rcases h3 : dictGet ae envCode with _ | ag <;> simp [h3]

end Redirect

lemma joinAmp_pairs_ne_empty (l : List (String × String)) (h : l ≠ []) :
    joinAmp (l.map (fun p => p.1 ++ "=" ++ p.2)) ≠ "" := by
  match l with
  | [] => exact absurd rfl h
  | [(k, v)] =>
    intro hc
    have hd := congrArg String.data hc
    simp [joinAmp] at hd
  | (k, v) :: q :: rest =>
    intro hc
    have hd := congrArg String.data hc
    simp [joinAmp] at hd

lemma find_mapping_eq_none_iff :
    ∀ (mappings : List (List (String × String))) (a : String),
      (∀ m ∈ mappings, dictGet m "AppName" ≠ none) →
      (HttpTrigger1.find_mapping mappings a = Except.ok none ↔
        ∀ m ∈ mappings, dictGet m "AppName" ≠ some a)
  | [], a, _ => by simp [HttpTrigger1.find_mapping]
  | m :: rest, a, h => by
    rcases hm : dictGet m "AppName" with _ | v
    · exact absurd hm (h m (List.mem_cons_self m rest))
    · by_cases hv : v = a
      · subst hv
        simp [HttpTrigger1.find_mapping, hm]
      · have ih := find_mapping_eq_none_iff rest a
          (fun x hx => h x (List.mem_cons_of_mem m hx))
        simp [HttpTrigger1.find_mapping, hm, hv, ih]

/-- C3: `parse_app_name` is total: identifiers shorter than 4 characters
yield `(PRD, raw)`; otherwise, when the uppercase of the first 3 characters
is one of PRD/TST/DEV, it yields that code with `raw[3:]`; otherwise it
yields `(PRD, raw)` with the entire original string as the app name. -/
theorem C3_parse_app_name_total (raw : String) :
    (raw.length < 4 → Redirect.parse_app_name raw = ("PRD", raw))
    ∧ (4 ≤ raw.length →
        str_upper (raw.take 3) ∈ Redirect.SUPPORTED_ENVIRONMENTS →
        Redirect.parse_app_name raw = (str_upper (raw.take 3), raw.drop 3))
    ∧ (4 ≤ raw.length →
        str_upper (raw.take 3) ∉ Redirect.SUPPORTED_ENVIRONMENTS →
        Redirect.parse_app_name raw = ("PRD", raw)) :=
  ⟨Redirect.parse_app_name_of_lt raw,
   Redirect.parse_app_name_of_mem raw,
   Redirect.parse_app_name_of_not_mem raw⟩

/-- C3 witness: the spec's own example `parse("TSTeprf") == ("TST", "eprf")`,
obtained from the theorem at that input. -/
theorem C3_witness : Redirect.parse_app_name "TSTeprf" = ("TST", "eprf") := by
  have h := (C3_parse_app_name_total "TSTeprf").2.1 (by decide) (by decide)
  exact h

/-- C8: before any query string, the redirect URL is
`https://apps.powerapps.com/play/e/{eg}/a/{ag}` for `is_gov = false` and
`https://apps.gov.powerapps.us/play/e/{eg}/a/{ag}` for `is_gov = true`. -/
theorem C8_redirect_url_shape (environment_guid app_guid : String) :
    redirect_url false environment_guid app_guid
        = "https://apps.powerapps.com/play/e/" ++ environment_guid
            ++ "/a/" ++ app_guid
    ∧ redirect_url true environment_guid app_guid
        = "https://apps.gov.powerapps.us/play/e/" ++ environment_guid
            ++ "/a/" ++ app_guid :=
  ⟨rfl, rfl⟩

/-- C6: the memoized loader (`functools.lru_cache(maxsize=1)` on
`load_config`) loads at most once successfully: after a first successful
call every later call returns the identical cached value with the remaining
sources never read (the outputs are the constant cached value, independent
of `attempts`); a failed call caches nothing, so the following call
re-attempts the load on the then-current source. -/
theorem C6_load_config_memoized (c : Redirect.Config2) (e : String)
    (attempts : List (Except String Redirect.Config2)) :
    Redirect.load_config_calls none (Except.ok c :: attempts)
        = Except.ok c :: attempts.map (fun _ => Except.ok c)
    ∧ Redirect.load_config_calls none (Except.error e :: attempts)
        = Except.error e :: Redirect.load_config_calls none attempts
    ∧ Redirect.load_config_calls (some c) attempts
        = attempts.map (fun _ => Except.ok c) := by
  refine ⟨?_, ?_, Redirect.load_config_calls_cached c attempts⟩
  · simp [Redirect.load_config_calls, Redirect.load_config_cached,
      Redirect.load_config_calls_cached c attempts]
  · simp [Redirect.load_config_calls, Redirect.load_config_cached]

/-- C10: in the flat-mapping variant, success is decided solely by exact
`AppName` equality: when the first matching entry has no `AppGUID` key the
handler still responds 302, and the application segment of the `Location`
URL is the literal text `None`. -/
theorem C10_missing_appguid (cfg : HttpTrigger1.Config1)
    (params : List (String × String)) (a : String) (m : List (String × String))
    (ha : dictGet params "app_name" = some a) (hne : a ≠ "")
    (hm : HttpTrigger1.find_mapping cfg.app_mappings a = Except.ok (some m))
    (hg : dictGet m "AppGUID" = none) :
    HttpTrigger1.main (Except.ok cfg) params
      = ⟨302, "", some (redirect_url cfg.is_gov cfg.environment_guid "None")⟩ := by
  simp [HttpTrigger1.main, ha, hne, hm, hg, pyOptStr]

/-- C10 witness: a configuration whose only entry lacks `AppGUID` still
produces a 302 whose application segment is `None`. -/
theorem C10_witness :
    HttpTrigger1.main (Except.ok cfg_flat_noguid) [("app_name", "cip")]
      = ⟨302, "", some (redirect_url true "eg" "None")⟩ :=
  C10_missing_appguid cfg_flat_noguid [("app_name", "cip")] "cip"
    [("AppName", "cip")] (by decide) (by decide) rfl (by decide)

/-- C1 counterexample: in the redirect variant a configuration load failure
surfaces as a 404 (the resolver catches `ConfigError` and reports the
identifier as not found), not as a 500 — the claim says a 404 can never
happen on configuration failure. -/
theorem C1_counterexample :
    Redirect.main (Except.error "Failed to load configuration: boom")
        (some "false") [("app_name", "cip")]
      = ⟨404, "App 'cip' not found or environment not supported.", none⟩
    ∧ (Redirect.main (Except.error "Failed to load configuration: boom")
        (some "false") [("app_name", "cip")]).status ≠ 500 := by
  constructor <;> decide

/-- C1 amended: the flat variant (`HttpTrigger1`) answers every request with
500 and the configuration-error body when loading fails; the redirect
variant only loads the configuration inside the resolver, whose caught
`ConfigError` makes a load failure surface as a 404 naming the
identifier. -/
theorem C1_amended :
    (∀ (e : String) (params : List (String × String)),
      HttpTrigger1.main (Except.error e) params
        = ⟨500, "Service configuration error", none⟩)
    ∧ (∀ (e : String) (isGovEnv : Option String)
        (params : List (String × String)) (a : String),
      dictGet params "app_name" = some a → a ≠ "" →
      Redirect.main (Except.error e) isGovEnv params
        = ⟨404, "App '" ++ a ++ "' not found or environment not supported.",
            none⟩) := by
  constructor
  · intro e params; rfl
  · intro e isGovEnv params a ha hne
    simp [Redirect.main, ha, hne, Redirect.get_mapping]

/-- C1 witness: the amended statement at a concrete failing load. -/
theorem C1_witness :
    Redirect.main (Except.error "boom") none [("app_name", "eprf")]
      = ⟨404, "App 'eprf' not found or environment not supported.", none⟩ := by
  have h := C1_amended.2 "boom" none [("app_name", "eprf")] "eprf"
    (by decide) (by decide)
  exact h

/-- C7 counterexample: `HttpTrigger1` loads the configuration before looking
at `app_name`, so a request with no `app_name` during a configuration
failure gets 500, where the claim demands 400 regardless of configuration
state. -/
theorem C7_counterexample :
    HttpTrigger1.main (Except.error "boom") []
      = ⟨500, "Service configuration error", none⟩
    ∧ (HttpTrigger1.main (Except.error "boom") []).status ≠ 400 := by
  constructor <;> decide

/-- C7 amended: the redirect variant answers 400 with the plain-text prompt
whenever `app_name` is absent or empty, whatever the configuration outcome;
`HttpTrigger1` does so only once its configuration has loaded successfully
(a load failure there wins with 500). -/
theorem C7_amended :
    (∀ (loadRes : Except String Redirect.Config2) (isGovEnv : Option String)
        (params : List (String × String)),
      dictGet params "app_name" = none ∨ dictGet params "app_name" = some "" →
      Redirect.main loadRes isGovEnv params
        = ⟨400, "Please provide an app_name in the query string.", none⟩)
    ∧ (∀ (cfg : HttpTrigger1.Config1) (params : List (String × String)),
      dictGet params "app_name" = none ∨ dictGet params "app_name" = some "" →
      HttpTrigger1.main (Except.ok cfg) params
        = ⟨400, "Please provide an app_name in the query string.", none⟩) := by
  constructor
  · rintro loadRes isGovEnv params (h | h) <;> simp [Redirect.main, h]
  · rintro cfg params (h | h) <;> simp [HttpTrigger1.main, h]

/-- C7 witness: the amended statement at a concrete request without
`app_name`, under a failed configuration load. -/
theorem C7_witness :
    Redirect.main (Except.error "boom") none [("x", "y")]
      = ⟨400, "Please provide an app_name in the query string.", none⟩ :=
  C7_amended.1 (Except.error "boom") none [("x", "y")] (Or.inl (by decide))

/-- C4 counterexample: the flat variant performs no prefix parsing — with a
table containing exactly the stripped name `foo`, the identifier `TSTfoo`
(length ≥ 4, valid code `TST`) is looked up whole and the request 404s,
though the claim says the name looked up is `foo`, never the full raw
string. -/
theorem C4_counterexample :
    HttpTrigger1.find_mapping cfg_flatTST.app_mappings "foo"
        = Except.ok (some [("AppName", "foo"), ("AppGUID", "g1")])
    ∧ HttpTrigger1.main (Except.ok cfg_flatTST) [("app_name", "TSTfoo")]
        = ⟨404, "App 'TSTfoo' not found.", none⟩ := by
  exact ⟨rfl, by decide⟩

/-- C4 amended: in the redirect variant the parsing step always precedes the
lookup: for every configuration (even one whose stored app name literally
starts with a reserved code) and every identifier of length ≥ 4 whose first
3 characters uppercase to a supported code, the resolver continues with the
stripped name and that code, never the full raw string; the flat
`HttpTrigger1` variant performs no prefix parsing at all. -/
theorem C4_amended (cfg : Redirect.Config2) (raw : String)
    (h4 : 4 ≤ raw.length)
    (hmem : str_upper (raw.take 3) ∈ Redirect.SUPPORTED_ENVIRONMENTS) :
    Redirect.get_mapping (Except.ok cfg) raw
      = Redirect.lookup_parsed cfg (str_upper (raw.take 3)) (raw.drop 3) := by
  simp [Redirect.get_mapping, Redirect.parse_app_name_of_mem raw h4 hmem]

/-- C4 witness: with a stored app literally named `TSTadmin`, the identifier
`TSTadmin` is still parsed first and resolved as app `admin` in `TST`. -/
theorem C4_witness :
    Redirect.get_mapping (Except.ok cfg_envTST) "TSTadmin"
      = Redirect.lookup_parsed cfg_envTST "TST" "admin" := by
  have h := C4_amended cfg_envTST "TSTadmin" (by decide) (by decide)
  exact h

/-- C5 counterexample: in the flat variant the raw identifier `PRDcip` is
matched whole against `AppName` — the parsed app name `cip` is present in
the table, so the claim predicts success, yet the handler 404s. -/
theorem C5_counterexample :
    Redirect.parse_app_name "PRDcip" = ("PRD", "cip")
    ∧ HttpTrigger1.find_mapping cfg_flat.app_mappings "cip"
        = Except.ok (some [("AppName", "cip"), ("AppGUID", "g")])
    ∧ HttpTrigger1.main (Except.ok cfg_flat) [("app_name", "PRDcip")]
        = ⟨404, "App 'PRDcip' not found.", none⟩ := by
  exact ⟨by decide, rfl, by decide⟩

/-- C5 amended: in the per-environment variant, resolution with a loaded
configuration yields `None` exactly when the parsed environment code is
absent from `EnvironmentGUIDs`, or the parsed app name is absent from
`Apps`, or the code is absent from that app's own table, and succeeds with
the resolved mapping otherwise; in the flat variant (whose entries all
carry an `AppName` key) it yields `None` exactly when no entry's `AppName`
equals the raw, unparsed identifier. -/
theorem C5_amended :
    (∀ (cfg : Redirect.Config2) (raw : String),
      Redirect.get_mapping (Except.ok cfg) raw = none ↔
        dictGet cfg.environmentGUIDs (Redirect.parse_app_name raw).1 = none
        ∨ dictGet cfg.apps (Redirect.parse_app_name raw).2 = none
        ∨ ∃ app_envs,
            dictGet cfg.apps (Redirect.parse_app_name raw).2 = some app_envs
            ∧ dictGet app_envs (Redirect.parse_app_name raw).1 = none)
    ∧ (∀ (cfg : Redirect.Config2) (raw eg ag : String)
        (app_envs : List (String × String)),
      dictGet cfg.environmentGUIDs (Redirect.parse_app_name raw).1 = some eg →
      dictGet cfg.apps (Redirect.parse_app_name raw).2 = some app_envs →
      dictGet app_envs (Redirect.parse_app_name raw).1 = some ag →
      Redirect.get_mapping (Except.ok cfg) raw
        = some ⟨(Redirect.parse_app_name raw).2, (Redirect.parse_app_name raw).1,
            eg, ag⟩)
    ∧ (∀ (mappings : List (List (String × String))) (a : String),
      (∀ m ∈ mappings, dictGet m "AppName" ≠ none) →
      (HttpTrigger1.find_mapping mappings a = Except.ok none ↔
        ∀ m ∈ mappings, dictGet m "AppName" ≠ some a)) := by
  refine ⟨?_, ?_, find_mapping_eq_none_iff⟩
  · intro cfg raw
    simpa [Redirect.get_mapping] using
      Redirect.lookup_parsed_eq_none_iff cfg (Redirect.parse_app_name raw).1
        (Redirect.parse_app_name raw).2
  · intro cfg raw eg ag app_envs h1 h2 h3
    simp [Redirect.get_mapping, Redirect.lookup_parsed, h1, h2, h3]

/-- C5 witness: the flat-variant characterization at a concrete table and
identifier. -/
theorem C5_witness :
    HttpTrigger1.find_mapping [[("AppName", "x")]] "y" = Except.ok none := by
  have h := C5_amended.2.2 [[("AppName", "x")]] "y" (by decide)
  exact h.mpr (by decide)

/-- C2 counterexample: `HttpTrigger1` drops every query parameter other than
`app_name`: a resolved request carrying `foo=bar` redirects to a `Location`
with no query string at all, where the claim demands `?foo=bar`. -/
theorem C2_counterexample :
    HttpTrigger1.main (Except.ok cfg_flat) [("app_name", "cip"), ("foo", "bar")]
      = ⟨302, "", some "https://apps.powerapps.com/play/e/eg/a/g"⟩
    ∧ (HttpTrigger1.main (Except.ok cfg_flat)
        [("app_name", "cip"), ("foo", "bar")]).location
      ≠ some "https://apps.powerapps.com/play/e/eg/a/g?foo=bar" := by
  constructor <;> decide

/-- C2 amended: in the redirect variant every resolved request preserves the
query parameters other than `app_name`: with a non-empty remainder the
`Location` is the base URL followed by `?` and the `&`-joined `key=value`
pairs in their original order, unencoded; with an empty remainder no `?` is
appended. The flat `HttpTrigger1` variant ignores all parameters other than
`app_name` and never appends a query string. -/
theorem C2_amended :
    (∀ (cfg : Redirect.Config2) (isGovEnv : Option String)
        (params : List (String × String)) (a : String) (m : Redirect.Mapping),
      dictGet params "app_name" = some a → a ≠ "" →
      Redirect.get_mapping (Except.ok cfg) a = some m →
      Redirect.main (Except.ok cfg) isGovEnv params
        = ⟨302, "",
            some (if Redirect.extra_params params = [] then
                redirect_url (Redirect.is_gov_env isGovEnv)
                  m.environmentGUID m.appGUID
              else
                redirect_url (Redirect.is_gov_env isGovEnv)
                    m.environmentGUID m.appGUID
                  ++ "?" ++ joinAmp ((Redirect.extra_params params).map
                      (fun p => p.1 ++ "=" ++ p.2)))⟩)
    ∧ (∀ (cfg : HttpTrigger1.Config1) (params : List (String × String))
        (a : String) (m : List (String × String)),
      dictGet params "app_name" = some a → a ≠ "" →
      HttpTrigger1.find_mapping cfg.app_mappings a = Except.ok (some m) →
      HttpTrigger1.main (Except.ok cfg) params
        = ⟨302, "",
            some (redirect_url cfg.is_gov cfg.environment_guid
              (pyOptStr (dictGet m "AppGUID")))⟩) := by
  constructor
  · intro cfg isGovEnv params a m ha hne hm
    simp [Redirect.main, ha, hne, hm]
    by_cases hx : Redirect.extra_params params = []
    · rw [hx]; simp [joinAmp]
    · have hqs := joinAmp_pairs_ne_empty _ hx
      rw [if_neg hqs, if_neg hx]
  · intro cfg params a m ha hne hm
    simp [HttpTrigger1.main, ha, hne, hm]

/-- C2 witness: a resolved redirect-variant request with two extra
parameters appends them in original order, unencoded. -/
theorem C2_witness :
    Redirect.main (Except.ok cfg_env) (some "true")
        [("app_name", "PRDcip"), ("foo", "bar"), ("baz", "qux")]
      = ⟨302, "",
          some "https://apps.gov.powerapps.us/play/e/e1/a/a1?foo=bar&baz=qux"⟩ := by
  have h := C2_amended.1 cfg_env (some "true")
    [("app_name", "PRDcip"), ("foo", "bar"), ("baz", "qux")] "PRDcip"
    ⟨"cip", "PRD", "e1", "a1"⟩ (by decide) (by decide) rfl
  exact h

/-- C9 counterexample: two requests in the same process, both after the same
successful configuration load, observe different `isGov` values and hence
different hosts once the `IS_GOV` environment variable changes in between —
the redirect variant re-reads it on every request. -/
theorem C9_counterexample :
    Redirect.main (Except.ok cfg_env) (some "false") [("app_name", "PRDcip")]
      = ⟨302, "", some "https://apps.powerapps.com/play/e/e1/a/a1"⟩
    ∧ Redirect.main (Except.ok cfg_env) (some "true") [("app_name", "PRDcip")]
      = ⟨302, "", some "https://apps.gov.powerapps.us/play/e/e1/a/a1"⟩
    ∧ Redirect.main (Except.ok cfg_env) (some "false") [("app_name", "PRDcip")]
      ≠ Redirect.main (Except.ok cfg_env) (some "true") [("app_name", "PRDcip")] := by
  refine ⟨by decide, by decide, by decide⟩

/-- C9 amended: in `HttpTrigger1` the host suffix is a function of the
cached configuration's `is_gov` flag alone; in the redirect variant it is a
function of the `IS_GOV` environment variable's value at the current
request, independent of the cached configuration. -/
theorem C9_amended :
    (∀ (cfg : HttpTrigger1.Config1) (params : List (String × String))
        (a : String) (m : List (String × String)),
      dictGet params "app_name" = some a → a ≠ "" →
      HttpTrigger1.find_mapping cfg.app_mappings a = Except.ok (some m) →
      (HttpTrigger1.main (Except.ok cfg) params).location
        = some (redirect_url cfg.is_gov cfg.environment_guid
            (pyOptStr (dictGet m "AppGUID"))))
    ∧ (∀ (cfg : Redirect.Config2) (isGovEnv : Option String)
        (params : List (String × String)) (a : String) (m : Redirect.Mapping),
      dictGet params "app_name" = some a → a ≠ "" →
      Redirect.get_mapping (Except.ok cfg) a = some m →
      (Redirect.main (Except.ok cfg) isGovEnv params).location
        = some (redirect_url (Redirect.is_gov_env isGovEnv)
              m.environmentGUID m.appGUID
            ++ Redirect.query_suffix params)) := by
  constructor
  · intro cfg params a m ha hne hm
    simp [HttpTrigger1.main, ha, hne, hm]
  · intro cfg isGovEnv params a m ha hne hm
    simp [Redirect.main, Redirect.query_suffix, ha, hne, hm]
    by_cases hx :
        joinAmp ((Redirect.extra_params params).map
          (fun p => p.1 ++ "=" ++ p.2)) = ""
    · rw [if_pos hx, if_pos hx, String.append_empty]
    · rw [if_neg hx, if_neg hx, String.append_assoc]

/-- C9 witness: the amended per-request dependence at a concrete request
with `IS_GOV` set to `true`. -/
theorem C9_witness :
    (Redirect.main (Except.ok cfg_env) (some "true")
        [("app_name", "PRDcip")]).location
      = some (redirect_url true "e1" "a1"
          ++ Redirect.query_suffix [("app_name", "PRDcip")]) := by
  have h := C9_amended.2 cfg_env (some "true") [("app_name", "PRDcip")]
    "PRDcip" ⟨"cip", "PRD", "e1", "a1"⟩ (by decide) (by decide) rfl
  exact h
